import Mathlib

/-!
Shallow embedding of `src/api/aec3_api.cc`, the frame-synchronous C wrapper
around the WebRTC AEC3 echo-cancellation engine.

Modelling conventions:
* The float arithmetic of the source is modelled over `ℚ`.  Every float
  constant in the source is a decimal literal, and the only operations the
  wrapper applies to floats are comparisons, `std::min` and `std::max`, so the
  embedding over exact rationals tracks the source's branch structure.
* The engine (`EchoControl`), the high-pass filter, the `AudioBuffer`
  containers and the `AudioFrame` staging objects are opaque external
  capabilities.  The stateful body of `aec3_process_frame` is embedded as the
  ordered trace of the operations it performs on them; byte counts of the two
  `memcpy` calls are recorded in the trace.
* Null pointers are modelled as `Option`/`Bool` flags (`true` = non-null);
  the pointed-to sample data is opaque and not modelled.
-/

namespace AEC3

open List

/-- `EchoCanceller3Config::Suppressor::MaskingThresholds`, restricted to the
two fields the wrapper writes (`enr_transparent`, `enr_suppress`). -/
structure MaskingThresholds where
  enr_transparent : ℚ
  enr_suppress : ℚ
deriving DecidableEq

/-- `EchoCanceller3Config`, restricted to the fields `aec3_create` writes
(flattened field paths of the original nested config). -/
structure EchoCanceller3Config where
  filter_export_linear_aec_output : Bool
  mask_lf : MaskingThresholds
  mask_hf : MaskingThresholds
  erle_max_l : ℚ
  erle_max_h : ℚ
  filter_main_leakage_converged : ℚ
  filter_main_error_floor : ℚ
  max_gain_during_echo : ℚ
  anti_howling_gain : ℚ
  audibility_threshold_lf : ℚ
  audibility_threshold_mf : ℚ
  audibility_threshold_hf : ℚ
deriving DecidableEq

/-- Modelled from the spec: the engine-default values of the fields the
wrapper may override.  The defaults of `EchoCanceller3Config` live in
`echo_canceller3_config.h`, which is outside the API source; the spec
describes the default profile as the least aggressive tier (highest
masking and audibility thresholds, lowest ERLE ceilings, engine-default
filter constants and gain floors), which these values realise. -/
def engineDefaultConfig : EchoCanceller3Config where
  filter_export_linear_aec_output := false
  mask_lf := ⟨0.3, 0.4⟩
  mask_hf := ⟨0.07, 0.1⟩
  erle_max_l := 4
  erle_max_h := 1.5
  filter_main_leakage_converged := 0.00005
  filter_main_error_floor := 0.001
  max_gain_during_echo := 1
  anti_howling_gain := 0.01
  audibility_threshold_lf := 10
  audibility_threshold_mf := 10
  audibility_threshold_hf := 10

/-- Modelled from the spec: the engine's documented valid range for each
overridden field (the engine's validation code is outside the API source):
masking thresholds, filter constants and gains lie in `[0, 1]`, ERLE
ceilings are at least `1` (no attenuation of the enhancement), audibility
thresholds are nonnegative. -/
def inValidRange (c : EchoCanceller3Config) : Prop :=
  0 ≤ c.mask_lf.enr_transparent ∧ c.mask_lf.enr_transparent ≤ 1 ∧
  0 ≤ c.mask_lf.enr_suppress ∧ c.mask_lf.enr_suppress ≤ 1 ∧
  0 ≤ c.mask_hf.enr_transparent ∧ c.mask_hf.enr_transparent ≤ 1 ∧
  0 ≤ c.mask_hf.enr_suppress ∧ c.mask_hf.enr_suppress ≤ 1 ∧
  1 ≤ c.erle_max_l ∧ 1 ≤ c.erle_max_h ∧
  0 ≤ c.filter_main_leakage_converged ∧ c.filter_main_leakage_converged ≤ 1 ∧
  0 ≤ c.filter_main_error_floor ∧ c.filter_main_error_floor ≤ 1 ∧
  0 ≤ c.max_gain_during_echo ∧ c.max_gain_during_echo ≤ 1 ∧
  0 ≤ c.anti_howling_gain ∧ c.anti_howling_gain ≤ 1 ∧
  0 ≤ c.audibility_threshold_lf ∧
  0 ≤ c.audibility_threshold_mf ∧
  0 ≤ c.audibility_threshold_hf

/-- Lines 34-35 of `aec3_api.cc`: the sentinel substitution
`config->suppression_level > 0.0f ? config->suppression_level : 1.0f`
followed by the clamp `std::max(0.0f, std::min(1.0f, suppression_level))`. -/
def suppressionLevelEffective (s : ℚ) : ℚ :=
  max 0 (min 1 (if 0 < s then s else 1))

/-- The `suppression_level >= 0.8f` branch of `aec3_create`
("Maximum/aggressive suppression settings"). -/
def maximumOverrides (c : EchoCanceller3Config) : EchoCanceller3Config :=
  { c with
    mask_lf := ⟨0.1, 0.2⟩,
    mask_hf := ⟨0.05, 0.08⟩,
    erle_max_l := 8,
    erle_max_h := 4,
    filter_main_leakage_converged := 0.00001,
    filter_main_error_floor := 0.0005,
    max_gain_during_echo := 0.1,
    anti_howling_gain := 0.005,
    audibility_threshold_lf := 5,
    audibility_threshold_mf := 5,
    audibility_threshold_hf := 5 }

/-- The `suppression_level >= 0.5f` branch of `aec3_create`
("Medium suppression"). -/
def mediumOverrides (c : EchoCanceller3Config) : EchoCanceller3Config :=
  { c with
    mask_lf := ⟨0.2, 0.3⟩,
    mask_hf := ⟨0.06, 0.09⟩,
    erle_max_l := 6,
    erle_max_h := 3,
    max_gain_during_echo := 0.3 }

/-- Lines 29-71 of `aec3_create`: starting from the engine-default config
`d`, set `filter.export_linear_aec_output` from the caller's flag, then
apply the tiered overrides selected by the effective suppression level. -/
def applyTuning (d : EchoCanceller3Config) (el : Bool) (s : ℚ) :
    EchoCanceller3Config :=
  if 0.8 ≤ suppressionLevelEffective s then
    maximumOverrides { d with filter_export_linear_aec_output := el }
  else if 0.5 ≤ suppressionLevelEffective s then
    mediumOverrides { d with filter_export_linear_aec_output := el }
  else
    { d with filter_export_linear_aec_output := el }

/-- `aec3_config_t` as used field-by-field by `aec3_create` (its declaration
in `aec3_api.h` is not part of the source tree). -/
structure aec3_config where
  sample_rate : Int
  num_channels : Int
  export_linear : Bool
  suppression_level : ℚ
deriving DecidableEq

/-- The construction parameters of the `EchoControl` instance produced by
`EchoCanceller3Factory(aec_config).Create(rate, channels, channels)`. -/
structure EchoControllerSpec where
  config : EchoCanceller3Config
  sample_rate_hz : Int
  num_render_channels : Int
  num_capture_channels : Int
deriving DecidableEq

/-- The construction parameters of `HighPassFilter(rate, channels)`. -/
structure HighPassFilterSpec where
  sample_rate_hz : Int
  num_channels : Int
deriving DecidableEq

/-- The construction parameters of an `AudioBuffer`: input, internal and
output rate/channel pairs. -/
structure AudioBufferSpec where
  input_rate : Int
  input_num_channels : Int
  buffer_rate : Int
  buffer_num_channels : Int
  output_rate : Int
  output_num_channels : Int
deriving DecidableEq

/-- An `AudioBuffer` whose three rate/channel pairs are identical, as built
by `aec3_create` from one `StreamConfig`. -/
def bufTriple (rate channels : Int) : AudioBufferSpec :=
  ⟨rate, channels, rate, channels, rate, channels⟩

/-- `struct aec3_handle`: the owned engine, filter and buffers plus the
cached rate/channel count.  The two `AudioFrame` staging members are scratch
state rewritten before every use; their reconfigurations appear as trace
operations of the pipeline instead. -/
structure aec3_handle where
  echo_controller : EchoControllerSpec
  hp_filter : HighPassFilterSpec
  ref_audio : AudioBufferSpec
  aec_audio : AudioBufferSpec
  aec_linear_audio : Option AudioBufferSpec
  sample_rate : Int
  num_channels : Int
deriving DecidableEq

/-- The resources `aec3_create` allocates. -/
inductive Resource where
  | handleObj
  | engine
  | hpFilter
  | refBuffer
  | captureBuffer
  | linearBuffer
deriving DecidableEq

/-- `aec3_create` (lines 22-104): null config yields a null handle and no
allocation; otherwise the handle owns an engine built with the tuned config,
a high-pass filter, reference/capture buffers at the configured rate and, if
`export_linear` is set, a linear buffer fixed at `kLinearOutputRateHz =
16000`.  The second component records the allocations performed. -/
def aec3_create (config : Option aec3_config) :
    Option aec3_handle × List Resource :=
  match config with
  | none => (none, [])
  | some cfg =>
    let aec_config :=
      applyTuning engineDefaultConfig cfg.export_linear cfg.suppression_level
    (some
      { echo_controller :=
          ⟨aec_config, cfg.sample_rate, cfg.num_channels, cfg.num_channels⟩,
        hp_filter := ⟨cfg.sample_rate, cfg.num_channels⟩,
        ref_audio := bufTriple cfg.sample_rate cfg.num_channels,
        aec_audio := bufTriple cfg.sample_rate cfg.num_channels,
        aec_linear_audio :=
          if cfg.export_linear then some (bufTriple 16000 cfg.num_channels)
          else none,
        sample_rate := cfg.sample_rate,
        num_channels := cfg.num_channels },
     [Resource.handleObj, Resource.engine, Resource.hpFilter,
      Resource.refBuffer, Resource.captureBuffer] ++
       (if cfg.export_linear then [Resource.linearBuffer] else []))

/-- One operation of the `aec3_process_frame` body on the handle's owned
state or the caller's arrays, in source order.  `updateRefFrame` and
`updateCaptureFrame` carry the samples-per-channel count and rate passed to
`AudioFrame::UpdateFrame`; `setAudioBufferDelay` carries the delay handed to
the engine; `processCapture` records whether the linear buffer was passed as
the secondary target; the two copy-out operations carry the byte count of
the corresponding `memcpy`. -/
inductive PipelineOp where
  | updateRefFrame (samples_per_channel : Nat) (rate : Int)
  | updateCaptureFrame (samples_per_channel : Nat) (rate : Int)
  | copyRefToBuffer
  | copyCaptureToBuffer
  | splitRefBands
  | analyzeRender
  | mergeRefBands
  | analyzeCapture
  | splitCaptureBands
  | highPassProcess
  | setAudioBufferDelay (delay : Int)
  | processCapture (linearTarget : Bool)
  | mergeCaptureBands
  | copyCaptureToFrame
  | copyToOutput (bytes : Int)
  | updateLinearFrame (samples_per_channel : Nat) (rate : Int)
  | copyLinearToFrame
  | copyToLinearOutput (bytes : Int)
deriving DecidableEq

/-- `aec3_process_frame` (lines 106-166).  Pointer arguments are modelled as
nullness flags (`true` = non-null) over opaque sample data; the returned
trace is the ordered list of operations the body performs.  The output
`memcpy` copies `frame_size * num_channels * sizeof(int16_t)` bytes; the
linear-output `memcpy` copies the literal `320` bytes. -/
def aec3_process_frame (handle : Option aec3_handle)
    (reference_frame capture_frame output_frame linear_output_frame : Bool)
    (frame_size : Nat) (buffer_delay : Int) : Int × List PipelineOp :=
  match handle with
  | none => (-1, [])
  | some h =>
    if !(reference_frame && capture_frame && output_frame) then (-1, [])
    else
      (0,
        [PipelineOp.updateRefFrame frame_size h.sample_rate,
         PipelineOp.updateCaptureFrame frame_size h.sample_rate,
         PipelineOp.copyRefToBuffer,
         PipelineOp.copyCaptureToBuffer,
         PipelineOp.splitRefBands,
         PipelineOp.analyzeRender,
         PipelineOp.mergeRefBands,
         PipelineOp.analyzeCapture,
         PipelineOp.splitCaptureBands,
         PipelineOp.highPassProcess,
         PipelineOp.setAudioBufferDelay buffer_delay,
         PipelineOp.processCapture h.aec_linear_audio.isSome,
         PipelineOp.mergeCaptureBands,
         PipelineOp.copyCaptureToFrame,
         PipelineOp.copyToOutput ((frame_size : Int) * h.num_channels * 2)]
        ++
        (if linear_output_frame && h.aec_linear_audio.isSome then
          [PipelineOp.updateLinearFrame (16000 / 100) 16000,
           PipelineOp.copyLinearToFrame,
           PipelineOp.copyToLinearOutput 320]
        else []))

/-- `aec3_destroy` (lines 168-170) is a single `delete handle`.  The C++
object model is embedded as the finite set of live handle pointers:
`delete nullptr` is a defined no-op; `delete` on a live pointer frees the
handle and, through its `unique_ptr` members, every resource it owns;
`delete` on a pointer that is no longer live is undefined behaviour
(double free), embedded as the `none` outcome. -/
def aec3_destroy (live : Finset ℕ) (handle : Option ℕ) :
    Option (Finset ℕ) :=
  match handle with
  | none => some live
  | some p => if p ∈ live then some (live.erase p) else none

/-- A concrete stereo 48 kHz handle whose linear buffer is allocated, as
`aec3_create` builds for `export_linear = true`. -/
def linearHandleExample : aec3_handle :=
  { echo_controller :=
      ⟨applyTuning engineDefaultConfig true 1, 48000, 2, 2⟩,
    hp_filter := ⟨48000, 2⟩,
    ref_audio := bufTriple 48000 2,
    aec_audio := bufTriple 48000 2,
    aec_linear_audio := some (bufTriple 16000 2),
    sample_rate := 48000,
    num_channels := 2 }

/-! ### Helper lemmas -/

theorem suppressionLevelEffective_of_nonpos {s : ℚ} (h : s ≤ 0) :
    suppressionLevelEffective s = 1 := by
  unfold suppressionLevelEffective
  rw [if_neg (not_lt.mpr h)]
  norm_num

theorem suppressionLevelEffective_of_pos_le_one {s : ℚ} (h0 : 0 < s)
    (h1 : s ≤ 1) : suppressionLevelEffective s = s := by
  unfold suppressionLevelEffective
  rw [if_pos h0, min_eq_right h1, max_eq_right h0.le]

theorem suppressionLevelEffective_of_one_lt {s : ℚ} (h : 1 < s) :
    suppressionLevelEffective s = 1 := by
  unfold suppressionLevelEffective
  rw [if_pos (lt_trans one_pos h), min_eq_left h.le]
  norm_num

theorem suppressionLevelEffective_mono_pos {a1 a2 : ℚ} (h0 : 0 < a1)
    (h12 : a1 ≤ a2) :
    suppressionLevelEffective a1 ≤ suppressionLevelEffective a2 := by
  unfold suppressionLevelEffective
  rw [if_pos h0, if_pos (lt_of_lt_of_le h0 h12)]
  exact max_le_max le_rfl (min_le_min le_rfl h12)

theorem applyTuning_of_ge (d : EchoCanceller3Config) (el : Bool) (s : ℚ)
    (hs : (0.8 : ℚ) ≤ suppressionLevelEffective s) :
    applyTuning d el s =
      maximumOverrides { d with filter_export_linear_aec_output := el } := by
  unfold applyTuning
  rw [if_pos hs]

theorem applyTuning_of_mid (d : EchoCanceller3Config) (el : Bool) (s : ℚ)
    (ha : (0.5 : ℚ) ≤ suppressionLevelEffective s)
    (hb : suppressionLevelEffective s < 0.8) :
    applyTuning d el s =
      mediumOverrides { d with filter_export_linear_aec_output := el } := by
  unfold applyTuning
  rw [if_neg (not_le.mpr hb), if_pos ha]

theorem applyTuning_of_low (d : EchoCanceller3Config) (el : Bool) (s : ℚ)
    (hb : suppressionLevelEffective s < 0.5) :
    applyTuning d el s = { d with filter_export_linear_aec_output := el } := by
  unfold applyTuning
  rw [if_neg (not_le.mpr (hb.trans_le (by norm_num))), if_neg (not_le.mpr hb)]

/-! ### Claim theorems -/

/-- Claim C1: profile selection in `aec3_create` is tiered into exactly three
discrete bands of the effective (post-substitution, post-clamp) suppression
level: levels at least `0.8` produce the maximum profile with all twelve
listed overrides; levels in `[0.5, 0.8)` override only the masking
thresholds, ERLE ceilings and `max_gain_during_echo`, leaving the filter
leakage/error-floor, gain-floor and audibility fields at the engine defaults
`d`; levels in `(0, 0.5)` override nothing. -/
theorem tiered_profile_selection (d : EchoCanceller3Config) (el : Bool)
    (s1 s2 s3 : ℚ)
    (h1 : (0.8 : ℚ) ≤ suppressionLevelEffective s1)
    (h2a : (0.5 : ℚ) ≤ suppressionLevelEffective s2)
    (h2b : suppressionLevelEffective s2 < 0.8)
    (h3a : (0 : ℚ) < suppressionLevelEffective s3)
    (h3b : suppressionLevelEffective s3 < 0.5) :
    applyTuning d el s1 =
      { d with
        filter_export_linear_aec_output := el,
        mask_lf := ⟨0.1, 0.2⟩,
        mask_hf := ⟨0.05, 0.08⟩,
        erle_max_l := 8,
        erle_max_h := 4,
        filter_main_leakage_converged := 0.00001,
        filter_main_error_floor := 0.0005,
        max_gain_during_echo := 0.1,
        anti_howling_gain := 0.005,
        audibility_threshold_lf := 5,
        audibility_threshold_mf := 5,
        audibility_threshold_hf := 5 } ∧
    applyTuning d el s2 =
      { d with
        filter_export_linear_aec_output := el,
        mask_lf := ⟨0.2, 0.3⟩,
        mask_hf := ⟨0.06, 0.09⟩,
        erle_max_l := 6,
        erle_max_h := 3,
        max_gain_during_echo := 0.3 } ∧
    applyTuning d el s3 = { d with filter_export_linear_aec_output := el } := by
  refine ⟨?_, ?_, applyTuning_of_low d el s3 h3b⟩
  · rw [applyTuning_of_ge d el s1 h1]
    cases d
    rfl
  · rw [applyTuning_of_mid d el s2 h2a h2b]
    cases d
    rfl

/-- Witness for C1 at inputs `1`, `3/5` and `3/10`, against the modelled
engine defaults. -/
theorem tiered_profile_selection_witness :
    ((0.8 : ℚ) ≤ suppressionLevelEffective 1) ∧
    ((0.5 : ℚ) ≤ suppressionLevelEffective (3/5)) ∧
    (suppressionLevelEffective (3/5) < 0.8) ∧
    ((0 : ℚ) < suppressionLevelEffective (3/10)) ∧
    (suppressionLevelEffective (3/10) < 0.5) ∧
    applyTuning engineDefaultConfig false (3/10) =
      { engineDefaultConfig with filter_export_linear_aec_output := false } := by
  have e1 : suppressionLevelEffective 1 = 1 :=
    suppressionLevelEffective_of_pos_le_one (by norm_num) le_rfl
  have e2 : suppressionLevelEffective (3/5) = 3/5 :=
    suppressionLevelEffective_of_pos_le_one (by norm_num) (by norm_num)
  have e3 : suppressionLevelEffective (3/10) = 3/10 :=
    suppressionLevelEffective_of_pos_le_one (by norm_num) (by norm_num)
  have h1 : (0.8 : ℚ) ≤ suppressionLevelEffective 1 := by rw [e1]; norm_num
  have h2a : (0.5 : ℚ) ≤ suppressionLevelEffective (3/5) := by rw [e2]; norm_num
  have h2b : suppressionLevelEffective (3/5) < 0.8 := by rw [e2]; norm_num
  have h3a : (0 : ℚ) < suppressionLevelEffective (3/10) := by rw [e3]; norm_num
  have h3b : suppressionLevelEffective (3/10) < 0.5 := by rw [e3]; norm_num
  exact ⟨h1, h2a, h2b, h3a, h3b,
    (tiered_profile_selection engineDefaultConfig false 1 (3/5) (3/10)
      h1 h2a h2b h3a h3b).2.2⟩

/-- Claim C2: a non-positive `suppression_level` is substituted by `1.0`
before the clamp, so it selects the maximum profile (not the default), and a
level above `1.0` is clamped to `1.0` and also selects the maximum profile;
in both cases the result equals the profile at level `1`. -/
theorem sentinel_and_clamp_select_maximum (d : EchoCanceller3Config)
    (el : Bool) (s t : ℚ) (hs : s ≤ 0) (ht : 1 < t) :
    suppressionLevelEffective s = 1 ∧
    applyTuning d el s = applyTuning d el 1 ∧
    suppressionLevelEffective t = 1 ∧
    applyTuning d el t = applyTuning d el 1 ∧
    (applyTuning d el s).mask_lf.enr_transparent = 0.1 ∧
    (applyTuning d el s).erle_max_l = 8 := by
  have es : suppressionLevelEffective s = 1 :=
    suppressionLevelEffective_of_nonpos hs
  have et : suppressionLevelEffective t = 1 :=
    suppressionLevelEffective_of_one_lt ht
  have e1 : suppressionLevelEffective 1 = 1 :=
    suppressionLevelEffective_of_pos_le_one (by norm_num) le_rfl
  have hmax : ∀ u : ℚ, suppressionLevelEffective u = 1 →
      applyTuning d el u =
        maximumOverrides { d with filter_export_linear_aec_output := el } :=
    fun u hu => applyTuning_of_ge d el u (by rw [hu]; norm_num)
  refine ⟨es, ?_, et, ?_, ?_, ?_⟩
  · rw [hmax s es, hmax 1 e1]
  · rw [hmax t et, hmax 1 e1]
  · rw [hmax s es]
    simp [maximumOverrides]
  · rw [hmax s es]
    simp [maximumOverrides]

/-- Witness for C2 at `s = -2` and `t = 3/2`. -/
theorem sentinel_and_clamp_select_maximum_witness :
    ((-2 : ℚ) ≤ 0) ∧ ((1 : ℚ) < 3/2) ∧
    suppressionLevelEffective (-2) = 1 ∧
    applyTuning engineDefaultConfig true (-2) =
      applyTuning engineDefaultConfig true 1 ∧
    suppressionLevelEffective (3/2) = 1 ∧
    applyTuning engineDefaultConfig true (3/2) =
      applyTuning engineDefaultConfig true 1 ∧
    (applyTuning engineDefaultConfig true (-2)).mask_lf.enr_transparent = 0.1 ∧
    (applyTuning engineDefaultConfig true (-2)).erle_max_l = 8 := by
  have hs : (-2 : ℚ) ≤ 0 := by norm_num
  have ht : (1 : ℚ) < 3/2 := by norm_num
  obtain ⟨p1, p2, p3, p4, p5, p6⟩ :=
    sentinel_and_clamp_select_maximum engineDefaultConfig true (-2) (3/2) hs ht
  exact ⟨hs, ht, p1, p2, p3, p4, p5, p6⟩

/-- Claim C4: a call to `aec3_process_frame` with a null handle or a null
reference, capture or output pointer returns the negative status `-1` and
performs no operation at all: the trace is empty, so no buffer is written
and no engine call is made. -/
theorem process_frame_null_noop (handle : Option aec3_handle)
    (r c o l : Bool) (fs : Nat) (bd : Int)
    (h : handle = none ∨ r = false ∨ c = false ∨ o = false) :
    aec3_process_frame handle r c o l fs bd = (-1, []) ∧ (-1 : Int) < 0 := by
  refine ⟨?_, by norm_num⟩
  rcases h with h | h | h | h
  · subst h; rfl
  · subst h; cases handle <;> rfl
  · subst h
    cases handle with
    | none => rfl
    | some a => cases r <;> rfl
  · subst h
    cases handle with
    | none => rfl
    | some a => cases r <;> cases c <;> rfl

/-- Witness for C4: a call with a null handle. -/
theorem process_frame_null_noop_witness :
    ((none : Option aec3_handle) = none ∨ true = false ∨ true = false ∨
      true = false) ∧
    (aec3_process_frame none true true true true 160 0 = (-1, []) ∧
      (-1 : Int) < 0) :=
  ⟨Or.inl rfl,
    process_frame_null_noop none true true true true 160 0 (Or.inl rfl)⟩

/-- Claim C7: `aec3_create` on a null configuration returns a null handle
and allocates nothing. -/
theorem create_null_config : aec3_create none = (none, []) := rfl

/-- Claim C10: the status of `aec3_process_frame` is `0` exactly when the
handle and the three mandatory pointers are non-null and `-1` otherwise, for
every `frame_size` (including `0`) and every `buffer_delay` (including
negative values); in particular the only statuses are `0` and `-1` and the
four null-pointer failures are indistinguishable. -/
theorem process_frame_status_characterization (handle : Option aec3_handle)
    (r c o l : Bool) (fs : Nat) (bd : Int) :
    (aec3_process_frame handle r c o l fs bd).1 =
      if handle.isSome && r && c && o then 0 else -1 := by
  cases handle <;> cases r <;> cases c <;> cases o <;>
    simp [aec3_process_frame]

/-- Claim C3: on every successful call the pipeline operations occur in the
fixed source order: the reference buffer is band-split, fed to render
analysis and merged back; the capture buffer is fed to capture analysis
before it is band-split, before the high-pass filter and before the
suppression stage; the caller's `buffer_delay` is handed to the engine
unmodified before the suppression stage; and the capture bands are merged
after suppression, before the copy-out to the caller's output array. -/
theorem process_frame_stage_order (h : aec3_handle) (l : Bool) (fs : Nat)
    (bd : Int) :
    (aec3_process_frame (some h) true true true l fs bd).1 = 0 ∧
    [PipelineOp.splitRefBands, PipelineOp.analyzeRender,
     PipelineOp.mergeRefBands, PipelineOp.analyzeCapture,
     PipelineOp.splitCaptureBands, PipelineOp.highPassProcess,
     PipelineOp.setAudioBufferDelay bd,
     PipelineOp.processCapture h.aec_linear_audio.isSome,
     PipelineOp.mergeCaptureBands,
     PipelineOp.copyToOutput ((fs : Int) * h.num_channels * 2)] <+
      (aec3_process_frame (some h) true true true l fs bd).2 := by
  refine ⟨rfl, ?_⟩
  have htr : (aec3_process_frame (some h) true true true l fs bd).2 =
      [PipelineOp.updateRefFrame fs h.sample_rate,
       PipelineOp.updateCaptureFrame fs h.sample_rate,
       PipelineOp.copyRefToBuffer,
       PipelineOp.copyCaptureToBuffer,
       PipelineOp.splitRefBands,
       PipelineOp.analyzeRender,
       PipelineOp.mergeRefBands,
       PipelineOp.analyzeCapture,
       PipelineOp.splitCaptureBands,
       PipelineOp.highPassProcess,
       PipelineOp.setAudioBufferDelay bd,
       PipelineOp.processCapture h.aec_linear_audio.isSome,
       PipelineOp.mergeCaptureBands,
       PipelineOp.copyCaptureToFrame,
       PipelineOp.copyToOutput ((fs : Int) * h.num_channels * 2)] ++
      (if l && h.aec_linear_audio.isSome then
        [PipelineOp.updateLinearFrame 160 16000,
         PipelineOp.copyLinearToFrame,
         PipelineOp.copyToLinearOutput 320]
      else []) := rfl
  rw [htr]
  refine List.Sublist.trans ?_ (List.sublist_append_left _ _)
  repeat
    first
    | exact List.nil_sublist _
    | apply List.Sublist.cons₂
    | apply List.Sublist.cons

/-- Claim C5: the caller's linear output array is written (the trailing
`memcpy` into `linear_output_frame` appears in the trace) if and only if the
linear buffer was allocated at creation and `linear_output_frame` is
non-null; every other combination skips the step and the call still
returns `0`. -/
theorem linear_output_write_iff (h : aec3_handle) (l : Bool) (fs : Nat)
    (bd : Int) :
    ((∃ n : Int, PipelineOp.copyToLinearOutput n ∈
        (aec3_process_frame (some h) true true true l fs bd).2) ↔
      (l = true ∧ h.aec_linear_audio.isSome = true)) ∧
    (aec3_process_frame (some h) true true true l fs bd).1 = 0 := by
  refine ⟨?_, rfl⟩
  have htr : (aec3_process_frame (some h) true true true l fs bd).2 =
      [PipelineOp.updateRefFrame fs h.sample_rate,
       PipelineOp.updateCaptureFrame fs h.sample_rate,
       PipelineOp.copyRefToBuffer,
       PipelineOp.copyCaptureToBuffer,
       PipelineOp.splitRefBands,
       PipelineOp.analyzeRender,
       PipelineOp.mergeRefBands,
       PipelineOp.analyzeCapture,
       PipelineOp.splitCaptureBands,
       PipelineOp.highPassProcess,
       PipelineOp.setAudioBufferDelay bd,
       PipelineOp.processCapture h.aec_linear_audio.isSome,
       PipelineOp.mergeCaptureBands,
       PipelineOp.copyCaptureToFrame,
       PipelineOp.copyToOutput ((fs : Int) * h.num_channels * 2)] ++
      (if l && h.aec_linear_audio.isSome then
        [PipelineOp.updateLinearFrame 160 16000,
         PipelineOp.copyLinearToFrame,
         PipelineOp.copyToLinearOutput 320]
      else []) := rfl
  rw [htr]
  rcases hla : h.aec_linear_audio with _ | b <;> cases l <;> simp [hla]

/-- Claim C6 counterexample: on a concrete 48 kHz stereo session with linear
output requested, the linear-output `memcpy` of the code copies `320` bytes,
not `320` 16-bit samples (`640` bytes) as the claim states. -/
theorem linear_copy_320_bytes_not_320_samples :
    PipelineOp.copyToLinearOutput (2 * 320) ∉
      (aec3_process_frame (some linearHandleExample)
        true true true true 480 0).2 ∧
    PipelineOp.copyToLinearOutput 320 ∈
      (aec3_process_frame (some linearHandleExample)
        true true true true 480 0).2 := by
  decide

/-- Claim C6 (amended): whenever the linear-output step executes, the staging
frame is reconfigured to `160` samples per channel at the fixed `16000` Hz
internal rate, the linear buffer is copied into it, and exactly `320` bytes
(that is, `160` 16-bit samples) are copied into the caller's linear output
array, independent of the session's configured sample rate. -/
theorem linear_output_step_fixed_rate (h : aec3_handle)
    (b : AudioBufferSpec) (fs : Nat) (bd : Int)
    (hb : h.aec_linear_audio = some b) :
    [PipelineOp.updateLinearFrame 160 16000, PipelineOp.copyLinearToFrame,
     PipelineOp.copyToLinearOutput 320] <+
      (aec3_process_frame (some h) true true true true fs bd).2 := by
  have htr : (aec3_process_frame (some h) true true true true fs bd).2 =
      [PipelineOp.updateRefFrame fs h.sample_rate,
       PipelineOp.updateCaptureFrame fs h.sample_rate,
       PipelineOp.copyRefToBuffer,
       PipelineOp.copyCaptureToBuffer,
       PipelineOp.splitRefBands,
       PipelineOp.analyzeRender,
       PipelineOp.mergeRefBands,
       PipelineOp.analyzeCapture,
       PipelineOp.splitCaptureBands,
       PipelineOp.highPassProcess,
       PipelineOp.setAudioBufferDelay bd,
       PipelineOp.processCapture h.aec_linear_audio.isSome,
       PipelineOp.mergeCaptureBands,
       PipelineOp.copyCaptureToFrame,
       PipelineOp.copyToOutput ((fs : Int) * h.num_channels * 2)] ++
      (if h.aec_linear_audio.isSome then
        [PipelineOp.updateLinearFrame 160 16000,
         PipelineOp.copyLinearToFrame,
         PipelineOp.copyToLinearOutput 320]
      else []) := rfl
  rw [htr, hb]
  exact List.sublist_append_right _ _

/-- Witness for the amended C6 on a concrete 48 kHz stereo session. -/
theorem linear_output_step_fixed_rate_witness :
    linearHandleExample.aec_linear_audio = some (bufTriple 16000 2) ∧
    [PipelineOp.updateLinearFrame 160 16000, PipelineOp.copyLinearToFrame,
     PipelineOp.copyToLinearOutput 320] <+
      (aec3_process_frame (some linearHandleExample)
        true true true true 480 7).2 :=
  ⟨rfl, linear_output_step_fixed_rate linearHandleExample
    (bufTriple 16000 2) 480 7 rfl⟩

/-- Claim C8 counterexample: the profile is not monotone in the raw input:
`a1 = -1 ≤ a2 = 3/5`, yet the sentinel maps `a1` to the maximum profile
(ERLE ceiling `8`) while `a2` gets the medium profile (ERLE ceiling `6`),
so the ERLE ceiling strictly decreases as the input increases. -/
theorem profile_not_monotone_in_raw_input :
    ((-1 : ℚ) ≤ 3/5) ∧
    (applyTuning engineDefaultConfig false (3/5)).erle_max_l <
      (applyTuning engineDefaultConfig false (-1)).erle_max_l := by
  have hm1 : suppressionLevelEffective (-1) = 1 :=
    suppressionLevelEffective_of_nonpos (by norm_num)
  have h35 : suppressionLevelEffective (3/5) = 3/5 :=
    suppressionLevelEffective_of_pos_le_one (by norm_num) (by norm_num)
  refine ⟨by norm_num, ?_⟩
  rw [applyTuning_of_ge engineDefaultConfig false (-1) (by rw [hm1]; norm_num),
    applyTuning_of_mid engineDefaultConfig false (3/5)
      (by rw [h35]; norm_num) (by rw [h35]; norm_num)]
  norm_num [maximumOverrides, mediumOverrides]

/-- Claim C8 (amended): for positive raw inputs `0 < a1 ≤ a2` the profile is
monotonically more aggressive: every masking, filter, gain and audibility
field of the profile at `a2` is at most the corresponding field at `a1`,
each ERLE ceiling at `a2` is at least the one at `a1`, and for every input
the produced configuration lies within the modelled valid ranges. -/
theorem profile_monotone_in_positive_input (el : Bool) (a1 a2 s : ℚ)
    (h0 : 0 < a1) (h12 : a1 ≤ a2) :
    ((applyTuning engineDefaultConfig el a2).mask_lf.enr_transparent ≤
        (applyTuning engineDefaultConfig el a1).mask_lf.enr_transparent ∧
      (applyTuning engineDefaultConfig el a2).mask_lf.enr_suppress ≤
        (applyTuning engineDefaultConfig el a1).mask_lf.enr_suppress ∧
      (applyTuning engineDefaultConfig el a2).mask_hf.enr_transparent ≤
        (applyTuning engineDefaultConfig el a1).mask_hf.enr_transparent ∧
      (applyTuning engineDefaultConfig el a2).mask_hf.enr_suppress ≤
        (applyTuning engineDefaultConfig el a1).mask_hf.enr_suppress ∧
      (applyTuning engineDefaultConfig el a1).erle_max_l ≤
        (applyTuning engineDefaultConfig el a2).erle_max_l ∧
      (applyTuning engineDefaultConfig el a1).erle_max_h ≤
        (applyTuning engineDefaultConfig el a2).erle_max_h ∧
      (applyTuning engineDefaultConfig el a2).filter_main_leakage_converged ≤
        (applyTuning engineDefaultConfig el a1).filter_main_leakage_converged ∧
      (applyTuning engineDefaultConfig el a2).filter_main_error_floor ≤
        (applyTuning engineDefaultConfig el a1).filter_main_error_floor ∧
      (applyTuning engineDefaultConfig el a2).max_gain_during_echo ≤
        (applyTuning engineDefaultConfig el a1).max_gain_during_echo ∧
      (applyTuning engineDefaultConfig el a2).anti_howling_gain ≤
        (applyTuning engineDefaultConfig el a1).anti_howling_gain ∧
      (applyTuning engineDefaultConfig el a2).audibility_threshold_lf ≤
        (applyTuning engineDefaultConfig el a1).audibility_threshold_lf ∧
      (applyTuning engineDefaultConfig el a2).audibility_threshold_mf ≤
        (applyTuning engineDefaultConfig el a1).audibility_threshold_mf ∧
      (applyTuning engineDefaultConfig el a2).audibility_threshold_hf ≤
        (applyTuning engineDefaultConfig el a1).audibility_threshold_hf) ∧
    inValidRange (applyTuning engineDefaultConfig el s) := by
  have hm := suppressionLevelEffective_mono_pos h0 h12
  constructor
  · by_cases h2 : (0.8 : ℚ) ≤ suppressionLevelEffective a2
    · by_cases h1 : (0.8 : ℚ) ≤ suppressionLevelEffective a1
      · rw [applyTuning_of_ge _ _ _ h1, applyTuning_of_ge _ _ _ h2]
        norm_num [maximumOverrides]
      · by_cases h1b : (0.5 : ℚ) ≤ suppressionLevelEffective a1
        · rw [applyTuning_of_mid _ _ _ h1b (not_le.mp h1),
            applyTuning_of_ge _ _ _ h2]
          norm_num [maximumOverrides, mediumOverrides, engineDefaultConfig]
        · rw [applyTuning_of_low _ _ _ (not_le.mp h1b),
            applyTuning_of_ge _ _ _ h2]
          norm_num [maximumOverrides, engineDefaultConfig]
    · have h1 : ¬ (0.8 : ℚ) ≤ suppressionLevelEffective a1 :=
        fun hc => h2 (hc.trans hm)
      by_cases h2b : (0.5 : ℚ) ≤ suppressionLevelEffective a2
      · by_cases h1b : (0.5 : ℚ) ≤ suppressionLevelEffective a1
        · rw [applyTuning_of_mid _ _ _ h1b (not_le.mp h1),
            applyTuning_of_mid _ _ _ h2b (not_le.mp h2)]
          norm_num [mediumOverrides, engineDefaultConfig]
        · rw [applyTuning_of_low _ _ _ (not_le.mp h1b),
            applyTuning_of_mid _ _ _ h2b (not_le.mp h2)]
          norm_num [mediumOverrides, engineDefaultConfig]
      · have h1b : ¬ (0.5 : ℚ) ≤ suppressionLevelEffective a1 :=
          fun hc => h2b (hc.trans hm)
        rw [applyTuning_of_low _ _ _ (not_le.mp h1b),
          applyTuning_of_low _ _ _ (not_le.mp h2b)]
        norm_num [engineDefaultConfig]
  · by_cases hs1 : (0.8 : ℚ) ≤ suppressionLevelEffective s
    · rw [applyTuning_of_ge _ _ _ hs1]
      norm_num [inValidRange, maximumOverrides, engineDefaultConfig]
    · by_cases hs2 : (0.5 : ℚ) ≤ suppressionLevelEffective s
      · rw [applyTuning_of_mid _ _ _ hs2 (not_le.mp hs1)]
        norm_num [inValidRange, mediumOverrides, engineDefaultConfig]
      · rw [applyTuning_of_low _ _ _ (not_le.mp hs2)]
        norm_num [inValidRange, engineDefaultConfig]

/-- Witness for the amended C8 at `a1 = 3/10`, `a2 = 9/10`, `s = 1`. -/
theorem profile_monotone_in_positive_input_witness :
    ((0 : ℚ) < 3/10) ∧ ((3/10 : ℚ) ≤ 9/10) ∧
    ((applyTuning engineDefaultConfig false (9/10)).mask_lf.enr_transparent ≤
      (applyTuning engineDefaultConfig false (3/10)).mask_lf.enr_transparent) ∧
    inValidRange (applyTuning engineDefaultConfig false 1) :=
  ⟨by norm_num, by norm_num,
    (profile_monotone_in_positive_input false (3/10) (9/10) 1
      (by norm_num) (by norm_num)).1.1,
    (profile_monotone_in_positive_input false (3/10) (9/10) 1
      (by norm_num) (by norm_num)).2⟩

/-- Claim C9 counterexample: destroying the same non-null handle twice is a
double free: in the heap model the first `aec3_destroy` frees handle `0`,
and the second `delete` on the now-dead pointer is undefined behaviour (the
faulting outcome `none`), so the code does not guarantee a fault-free double
destroy. -/
theorem destroy_twice_double_free :
    aec3_destroy {0} (some 0) = some (∅ : Finset ℕ) ∧
    aec3_destroy ∅ (some 0) = none := by
  decide

/-- Claim C9 (amended): `aec3_destroy` on a null handle is a no-op and does
not fault, and a single destroy of a live handle releases it (together with
all resources it owns through its `unique_ptr` members); destroying the same
non-null handle again is use-after-destroy, which the code leaves
undefined. -/
theorem destroy_null_noop_and_release (live : Finset ℕ) (p : ℕ)
    (hp : p ∈ live) :
    aec3_destroy live none = some live ∧
    aec3_destroy live (some p) = some (live.erase p) ∧
    p ∉ live.erase p := by
  refine ⟨rfl, ?_, Finset.not_mem_erase p live⟩
  simp [aec3_destroy, hp]

/-- Witness for the amended C9 on the singleton heap `{0}`. -/
theorem destroy_null_noop_and_release_witness :
    0 ∈ ({0} : Finset ℕ) ∧
    aec3_destroy {0} none = some ({0} : Finset ℕ) ∧
    aec3_destroy {0} (some 0) = some (({0} : Finset ℕ).erase 0) ∧
    0 ∉ (({0} : Finset ℕ).erase 0) :=
  ⟨by decide, destroy_null_noop_and_release {0} 0 (by decide)⟩

end AEC3
